import Mathlib

/-!
Shallow embedding of the TriagAI helpdesk resolution engine
(`backend/services/ticket_service.py`, `backend/services/vector_service.py`,
`backend/services/ai_service_new.py`, `backend/models/ticket_models.py`)
together with theorems settling the specification claims.

Numeric scores are modelled over `ℚ`.  The Python code compares `float`
values; every comparison appearing in the claims involves either exact
multiples of `1/1000` against the literals `0.8` / `0.9`, or ratios of
integers bounded by the keyword-vocabulary size against the literal `0.3`,
and for those inputs the IEEE-double comparisons coincide with the exact
rational ones, so `ℚ` is a faithful model.
-/

namespace TriagAI

/-- `models/ticket_models.py` : `IssueType(str, Enum)`. -/
inductive IssueType
  | hardware
  | software
  | network
  | access
  | other
deriving DecidableEq, Repr

/-- The `.value` string of an `IssueType` member. -/
def IssueType.value : IssueType → String
  | .hardware => "hardware"
  | .software => "software"
  | .network => "network"
  | .access => "access"
  | .other => "other"

/-- `IssueType(s)` as a total function: `some` member on a valid value,
`none` where the Python enum constructor raises `ValueError`. -/
def parseIssueType : String → Option IssueType
  | "hardware" => some .hardware
  | "software" => some .software
  | "network" => some .network
  | "access" => some .access
  | "other" => some .other
  | _ => none

/-- `models/ticket_models.py` : `UrgencyLevel(str, Enum)`. -/
inductive UrgencyLevel
  | low
  | medium
  | high
  | critical
deriving DecidableEq, Repr

/-- The `.value` string of an `UrgencyLevel` member. -/
def UrgencyLevel.value : UrgencyLevel → String
  | .low => "low"
  | .medium => "medium"
  | .high => "high"
  | .critical => "critical"

/-- `UrgencyLevel(s)` as a total function. -/
def parseUrgency : String → Option UrgencyLevel
  | "low" => some .low
  | "medium" => some .medium
  | "high" => some .high
  | "critical" => some .critical
  | _ => none

/-- `models/ticket_models.py` : `Department(str, Enum)`. -/
inductive Department
  | it
  | hr
  | finance
  | marketing
  | operations
  | support
  | other
deriving DecidableEq, Repr

/-- The `.value` string of a `Department` member. -/
def Department.value : Department → String
  | .it => "it"
  | .hr => "hr"
  | .finance => "finance"
  | .marketing => "marketing"
  | .operations => "operations"
  | .support => "support"
  | .other => "other"

/-- `models/ticket_models.py` : `TicketRequest`. -/
structure TicketRequest where
  name : String
  department : Department
  issue_description : String
deriving DecidableEq, Repr

/-- `models/ticket_models.py` : `SimilarTicket`.  The `resolved_date`
is kept as its ISO string. -/
structure SimilarTicket where
  id : String
  description : String
  resolution : String
  issue_type : IssueType
  urgency : UrgencyLevel
  similarity_score : ℚ
  resolved_date : String
deriving DecidableEq, Repr

/-- `models/ticket_models.py` : `TicketResponse`. -/
structure TicketResponse where
  ticket_id : String
  user_name : String
  department : Department
  issue_description : String
  issue_type : IssueType
  urgency : UrgencyLevel
  ai_generated_solution : String
  similar_tickets : List SimilarTicket
  escalation_contact : Option String
  processing_time_ms : Nat
  confidence_score : ℚ
  response_source : String
  source_ticket_id : Option String
deriving DecidableEq, Repr

/-! ## Keyword extraction (`TicketService._check_keyword_similarity`) -/

/-- `tech_keywords` literal, `ticket_service.py` lines 184-190. -/
def tech_keywords : List String :=
  ["vpn", "email", "internet", "network", "wifi", "browser", "application", "app",
   "software", "hardware", "printer", "laptop", "computer", "phone", "smartphone",
   "password", "login", "access", "permission", "file", "folder", "drive", "database",
   "server", "system", "windows", "macos", "linux", "chrome", "firefox", "outlook",
   "teams", "zoom", "slack", "office", "excel", "word", "powerpoint", "pdf"]

/-- `action_keywords` literal, `ticket_service.py` lines 192-197. -/
def action_keywords : List String :=
  ["crash", "crashing", "crashed", "freeze", "freezing", "frozen", "hang", "hanging",
   "slow", "fast", "loading", "opening", "closing", "starting", "stopping", "working",
   "not working", "broken", "error", "issue", "problem", "trouble", "failing", "failed",
   "connecting", "disconnecting", "installing", "uninstalling", "updating", "downloading"]

/-- `re.sub(r'[^\w\s]', ' ', text.lower())` : lowercase, then replace every
character that is neither a word character (alphanumeric or underscore) nor
whitespace by a space. -/
def normalizeText (s : String) : String :=
  String.mk (s.data.map (fun c =>
    let c := c.toLower
    if c.isAlphanum || c = '_' || c.isWhitespace then c else ' '))

/-- Whether `p` is an initial segment of `s` (character lists). -/
def charsLead : List Char → List Char → Bool
  | [], _ => true
  | _ :: _, [] => false
  | a :: as, b :: bs => a == b && charsLead as bs

/-- Whether `needle` occurs contiguously inside the second list
(Python's `keyword in text` on strings). -/
def charsInside (needle : List Char) : List Char → Bool
  | [] => needle.isEmpty
  | c :: rest => charsLead needle (c :: rest) || charsInside needle rest

/-- Python `keyword in text` after normalisation. -/
def containsToken (text token : String) : Bool :=
  charsInside token.data (normalizeText text).data

/-- `extract_keywords` (inner function of `_check_keyword_similarity`):
the subset of both fixed vocabularies occurring as substrings of the
normalised text, as a set. -/
def extract_keywords (text : String) : Finset String :=
  ((tech_keywords ++ action_keywords).filter (fun k => containsToken text k)).toFinset

/-! ## Overlap scoring -/

/-- `len(intersection) / len(union) if union else 0`
(`ticket_service.py` line 230): Jaccard ratio, 0 when both sets are empty. -/
def jaccard (A B : Finset String) : ℚ :=
  if A ∪ B = ∅ then 0 else ((A ∩ B).card : ℚ) / ((A ∪ B).card : ℚ)

/-- Body of `_check_keyword_similarity` after keyword extraction
(`ticket_service.py` lines 222-233): false when either keyword set is
empty, otherwise requires Jaccard ratio ≥ 0.3 and ≥ 2 common keywords. -/
def sufficientOverlap (A B : Finset String) : Bool :=
  if A = ∅ ∨ B = ∅ then false
  else
    let i := A ∩ B
    let u := A ∪ B
    let keyword_similarity : ℚ := if u = ∅ then 0 else (i.card : ℚ) / (u.card : ℚ)
    decide (3/10 ≤ keyword_similarity) && decide (2 ≤ i.card)

/-- `TicketService._check_keyword_similarity(query, reference)`. -/
def check_keyword_similarity (query reference : String) : Bool :=
  sufficientOverlap (extract_keywords query) (extract_keywords reference)

/-! ## Similarity search (`VectorService.search_similar`) -/

/-- `max(0, 1 - (distance / 2))`, `vector_service.py` line 226. -/
def similarityFromDistance (distance : ℚ) : ℚ :=
  max 0 (1 - distance / 2)

/-- Round-to-nearest integer, ties to even (Python's `round`). -/
def roundHalfEven (q : ℚ) : ℤ :=
  let f := ⌊q⌋
  let frac := q - f
  if frac < 1/2 then f
  else if 1/2 < frac then f + 1
  else if f % 2 = 0 then f else f + 1

/-- Python `round(x, 3)`. -/
def round3 (q : ℚ) : ℚ :=
  (roundHalfEven (q * 1000) : ℚ) / 1000

/-- One row of the external index's query result: document text, the
metadata fields the code reads, and the raw distance. -/
structure RawResult where
  document : String
  ticket_id : String
  resolution : String
  issue_type : String
  urgency : String
  resolved_date : String
  distance : ℚ
deriving DecidableEq, Repr

/-- Per-row body of the loop in `search_similar` (lines 218-246): convert
distance to similarity, keep the row only when the (unrounded) similarity
reaches `min_similarity`, build the `SimilarTicket` with the score rounded
to three decimals; a row whose enum values fail to parse is skipped
(the per-row `try/except ... continue`). -/
def buildTicket (min_similarity : ℚ) (r : RawResult) : Option SimilarTicket :=
  let similarity_score := similarityFromDistance r.distance
  if min_similarity ≤ similarity_score then
    match parseIssueType r.issue_type, parseUrgency r.urgency with
    | some it, some ur =>
        some { id := r.ticket_id
               description := r.document
               resolution := r.resolution
               issue_type := it
               urgency := ur
               similarity_score := round3 similarity_score
               resolved_date := r.resolved_date }
    | _, _ => none
  else none

/-- Descending comparison used by
`similar_tickets.sort(key=lambda x: x.similarity_score, reverse=True)`. -/
def scoreGe (a b : SimilarTicket) : Bool :=
  b.similarity_score ≤ a.similarity_score

/-- `VectorService.search_similar`.  The external call
`collection.query(...)` is modelled by its outcome: either an exception or
the raw rows (already capped at `limit` by the index).  On exception the
function returns `[]` (lines 257-259); otherwise rows are converted,
filtered by the floor and stably sorted by descending similarity. -/
def search_similar (raw : Except String (List RawResult)) (limit : Nat)
    (min_similarity : ℚ) : List SimilarTicket :=
  match raw with
  | .error _ => []
  | .ok results =>
      let _ := limit
      ((results.filterMap (buildTicket min_similarity)).mergeSort scoreGe)

/-- `TicketService._find_similar_tickets`: calls `search_similar` with
`limit=5`, `min_similarity=0.3`; its own `try/except` returns `[]` on
failure (already absorbed by `search_similar`, which never throws). -/
def find_similar_tickets (raw : Except String (List RawResult)) : List SimilarTicket :=
  search_similar raw 5 (3/10)

/-! ## The resolution gate (`TicketService.process_ticket`, lines 59-102) -/

/-- The `use_database_solution` flag computed at lines 65-81:
very high similarity (≥ 0.9) is trusted unconditionally; similarity in
[0.8, 0.9) additionally needs the keyword check; otherwise false. -/
def useDatabaseSolution (similar : List SimilarTicket) (query : String) : Bool :=
  match similar with
  | [] => false
  | best :: _ =>
      if (9:ℚ)/10 ≤ best.similarity_score then true
      else if (8:ℚ)/10 ≤ best.similarity_score
          && check_keyword_similarity query best.description then true
      else false

/-- The `response_source` value: initialised to `"database"`, changed to
`"ai"` exactly when `use_database_solution` is false (lines 60, 83-85). -/
def responseSource (similar : List SimilarTicket) (query : String) : String :=
  if useDatabaseSolution similar query then "database" else "ai"

/-! ## Escalation routing -/

/-- The `escalation_contacts` table (`ticket_service.py` lines 22-43). -/
def escalation_contacts : List (String × List (String × String)) :=
  [("hardware", [("it", "hardware-support@company.com"),
                 ("default", "it-support@company.com")]),
   ("software", [("it", "software-support@company.com"),
                 ("default", "it-support@company.com")]),
   ("network", [("it", "network-admin@company.com"),
                ("default", "network-support@company.com")]),
   ("access", [("hr", "hr-access@company.com"),
               ("finance", "finance-access@company.com"),
               ("default", "security-admin@company.com")]),
   ("other", [("default", "general-support@company.com")])]

/-- Python `dict.get(key)` on an association-list model of a dict. -/
def dictGet (l : List (String × α)) (k : String) : Option α :=
  (l.find? (fun p => p.1 == k)).map Prod.snd

/-- `TicketService._get_escalation_contact` (lines 251-258):
`table.get(issue_type, {})`, then
`.get(department, .get("default", "support@company.com"))`. -/
def get_escalation_contact (issue_type department : String) : String :=
  let issue_contacts := (dictGet escalation_contacts issue_type).getD []
  ((dictGet issue_contacts department).getD
    ((dictGet issue_contacts "default").getD "support@company.com"))

/-! ## Generator-output validation (`AIService._validate_analysis`) -/

/-- A JSON value in the `confidence_score` slot: a number, or something
that is not a number (fails `isinstance(confidence, (int, float))`). -/
inductive JVal
  | num (q : ℚ)
  | nonNum (s : String)
deriving DecidableEq, Repr

/-- The parsed-JSON analysis dict, restricted to the keys
`_validate_analysis` touches; `none` models an absent key. -/
structure AnalysisDict where
  issue_type : Option String
  urgency : Option String
  confidence_score : Option JVal
  solution : Option String
  reasoning : Option String
  estimated_resolution_time : Option String
  required_skills : Option String
  escalation_criteria : Option String
deriving DecidableEq, Repr

/-- `[e.value for e in IssueType]`. -/
def valid_issue_types : List String :=
  ["hardware", "software", "network", "access", "other"]

/-- `[e.value for e in UrgencyLevel]`. -/
def valid_urgencies : List String :=
  ["low", "medium", "high", "critical"]

/-- The required-field step (lines 248-252): an absent or falsy (empty)
string is replaced by `"Information not available"`. -/
def fillRequired (o : Option String) : Option String :=
  match o with
  | some s => if s = "" then some "Information not available" else some s
  | none => some "Information not available"

/-- `AIService._validate_analysis` (`ai_service_new.py` lines 231-255).
Note the confidence step mirrors the code exactly: the local default
`0.5` is taken for a missing key, but the dict is only written back when
the validation condition fires — so a missing `confidence_score` key
remains missing after validation. -/
def validate_analysis (analysis : AnalysisDict) : AnalysisDict :=
  let a1 :=
    if (match analysis.issue_type with
        | some s => decide (s ∈ valid_issue_types)
        | none => false)
    then analysis else { analysis with issue_type := some "other" }
  let a2 :=
    if (match a1.urgency with
        | some s => decide (s ∈ valid_urgencies)
        | none => false)
    then a1 else { a1 with urgency := some "medium" }
  let confidence := a2.confidence_score.getD (JVal.num (1/2))
  let a3 :=
    match confidence with
    | .num q => if q < 0 ∨ 1 < q then { a2 with confidence_score := some (.num (1/2)) } else a2
    | .nonNum _ => { a2 with confidence_score := some (.num (1/2)) }
  { a3 with
    solution := fillRequired a3.solution
    reasoning := fillRequired a3.reasoning
    estimated_resolution_time := fillRequired a3.estimated_resolution_time
    required_skills := fillRequired a3.required_skills
    escalation_criteria := fillRequired a3.escalation_criteria }

/-! ## The processing pipeline (`TicketService.process_ticket`) -/

/-- The validated generator analysis as consumed by `process_ticket`
(the fields read from the dict returned by `AIService.analyze_ticket`). -/
structure GenAnalysis where
  issue_type : String
  urgency : String
  solution : String
  confidence_score : ℚ
  reasoning : String
deriving DecidableEq, Repr

/-- The response built when `use_database_solution` is true
(lines 93-102 and 113-128): solution, issue type, urgency and confidence
all come from the best match, and `source_ticket_id` is set to it. -/
def reuseResponse (ticketId : String) (req : TicketRequest)
    (similar : List SimilarTicket) (best : SimilarTicket) (ptime : Nat) : TicketResponse :=
  { ticket_id := ticketId
    user_name := req.name
    department := req.department
    issue_description := req.issue_description
    issue_type := best.issue_type
    urgency := best.urgency
    ai_generated_solution := best.resolution
    similar_tickets := similar.take 3
    escalation_contact :=
      some (get_escalation_contact best.issue_type.value req.department.value)
    processing_time_ms := ptime
    confidence_score := best.similarity_score
    response_source := "database"
    source_ticket_id := some best.id }

/-- The regeneration branch (lines 83-92 and 113-128): the generator is
invoked (modelled by its outcome `gen`; a raised exception propagates to
the outer handler), and the response carries the generator's fields; the
enum constructors `IssueType(...)` / `UrgencyLevel(...)` raise on an
invalid string, modelled as an error. -/
def aiBranch (ticketId : String) (req : TicketRequest)
    (similar : List SimilarTicket) (gen : Except String GenAnalysis)
    (ptime : Nat) : Except String TicketResponse := do
  let g ← gen
  match parseIssueType g.issue_type, parseUrgency g.urgency with
  | some it, some ur =>
      Except.ok
        { ticket_id := ticketId
          user_name := req.name
          department := req.department
          issue_description := req.issue_description
          issue_type := it
          urgency := ur
          ai_generated_solution := g.solution
          similar_tickets := similar.take 3
          escalation_contact :=
            some (get_escalation_contact g.issue_type req.department.value)
          processing_time_ms := ptime
          confidence_score := g.confidence_score
          response_source := "ai"
          source_ticket_id := none }
  | _, _ => Except.error "invalid enum value in AI analysis"

/-- The body of the `try` block of `process_ticket` (lines 50-131), given
the already-retrieved similar tickets: choose the branch with
`use_database_solution` and build the response. -/
def processTicketInner (ticketId : String) (req : TicketRequest)
    (similar : List SimilarTicket) (gen : Except String GenAnalysis)
    (ptime : Nat) : Except String TicketResponse :=
  match similar, useDatabaseSolution similar req.issue_description with
  | best :: _, true => Except.ok (reuseResponse ticketId req similar best ptime)
  | _, _ => aiBranch ticketId req similar gen ptime

/-- The fixed fallback response of the outer `except` handler
(lines 133-150). -/
def fallbackResponse (ticketId : String) (req : TicketRequest) (ptime : Nat) : TicketResponse :=
  { ticket_id := ticketId
    user_name := req.name
    department := req.department
    issue_description := req.issue_description
    issue_type := .other
    urgency := .medium
    ai_generated_solution :=
      "We're experiencing technical difficulties. Please contact IT support directly for immediate assistance."
    similar_tickets := []
    escalation_contact := some "it-support@company.com"
    processing_time_ms := ptime
    confidence_score := 1/10
    response_source := "fallback"
    source_ticket_id := none }

/-- `TicketService.process_ticket`: retrieve similar tickets (never
throws), run the pipeline body, and catch any exception with the fixed
fallback response. -/
def process_ticket (ticketId : String) (req : TicketRequest)
    (raw : Except String (List RawResult)) (gen : Except String GenAnalysis)
    (ptime : Nat) : TicketResponse :=
  let similar := find_similar_tickets raw
  match processTicketInner ticketId req similar gen ptime with
  | .ok r => r
  | .error _ => fallbackResponse ticketId req ptime

/-! ## Spec-side definitions (for the refinement claim C1) -/

/-- The two decision sources named by the spec. -/
inductive Source
  | reuse
  | regenerate
deriving DecidableEq, Repr

/-- Modelled from the spec (§4.4 decision rule), for comparison with the
code's gate: empty candidates → regenerate; top ≥ 0.9 → reuse with no
keyword check; else top ≥ 0.8 and sufficient keyword overlap → reuse;
else regenerate. -/
def specResolutionGate (candidates : List SimilarTicket) (queryText : String) : Source :=
  match candidates with
  | [] => .regenerate
  | top :: _ =>
      if (9:ℚ)/10 ≤ top.similarity_score then .reuse
      else if (8:ℚ)/10 ≤ top.similarity_score ∧
          sufficientOverlap (extract_keywords queryText) (extract_keywords top.description) = true
      then .reuse
      else .regenerate

/-- The `response_source` string corresponding to each spec source:
reuse is served from the database, regenerate from the AI generator. -/
def sourceLabel : Source → String
  | .reuse => "database"
  | .regenerate => "ai"

/-! ## Helper lemmas -/

lemma inter_card_zero_of_empty {A B : Finset String} (h : A = ∅ ∨ B = ∅) :
    (A ∩ B).card = 0 := by
  rcases h with h | h <;> subst h <;> simp

lemma sufficientOverlap_eq_iff (A B : Finset String) :
    sufficientOverlap A B = true ↔ 3/10 ≤ jaccard A B ∧ 2 ≤ (A ∩ B).card := by
  unfold sufficientOverlap jaccard
  by_cases h : A = ∅ ∨ B = ∅
  · have hcard : (A ∩ B).card = 0 := inter_card_zero_of_empty h
    rw [if_pos h]
    simp [hcard]
  · have hu : ¬ A ∪ B = ∅ := by
      intro hu
      rcases Finset.union_eq_empty.mp hu with ⟨h1, h2⟩
      exact h (Or.inl h1)
    rw [if_neg h, if_neg hu]
    show (decide (3/10 ≤ if A ∪ B = ∅ then (0:ℚ) else _) && decide _) = true ↔ _
    rw [if_neg hu]
    rw [Bool.and_eq_true, decide_eq_true_iff, decide_eq_true_iff]

lemma sufficientOverlap_false_of_small_inter {A B : Finset String}
    (h : (A ∩ B).card < 2) : sufficientOverlap A B = false := by
  rw [Bool.eq_false_iff]
  intro hT
  exact absurd ((sufficientOverlap_eq_iff A B).mp hT).2 (Nat.not_le.mpr h)

/-! ## Claim theorems -/

/-- C3: for every pair of keyword sets `A` and `B`, the sufficient-overlap
predicate holds iff the Jaccard ratio is at least 0.3 and the intersection
has at least 2 elements; in particular it is false whenever the
intersection has fewer than 2 elements, regardless of the ratio. -/
theorem sufficient_overlap_characterisation (A B : Finset String) :
    (sufficientOverlap A B = true ↔ 3/10 ≤ jaccard A B ∧ 2 ≤ (A ∩ B).card) ∧
    ((A ∩ B).card < 2 → sufficientOverlap A B = false) :=
  ⟨sufficientOverlap_eq_iff A B, sufficientOverlap_false_of_small_inter⟩

/-- Witness for C3: a single shared token never satisfies the predicate,
even with Jaccard ratio 1. -/
theorem sufficient_overlap_characterisation_witness :
    sufficientOverlap {"vpn"} {"vpn"} = false :=
  (sufficient_overlap_characterisation {"vpn"} {"vpn"}).2 (by decide)

/-- C9: the Jaccard similarity of any non-empty keyword set with itself is
1, and the Jaccard similarity of the empty set with itself is defined as 0. -/
theorem jaccard_self_and_empty (A : Finset String) :
    (A.Nonempty → jaccard A A = 1) ∧
    jaccard (∅ : Finset String) (∅ : Finset String) = 0 := by
  constructor
  · intro hA
    unfold jaccard
    rw [Finset.union_self, Finset.inter_self,
      if_neg (Finset.nonempty_iff_ne_empty.mp hA)]
    exact div_self (Nat.cast_ne_zero.mpr (Finset.card_ne_zero_of_mem hA.choose_spec))
  · simp [jaccard]

/-- Witness for C9 at the concrete non-empty set `{"vpn"}`. -/
theorem jaccard_self_and_empty_witness :
    jaccard {"vpn"} {"vpn"} = 1 :=
  (jaccard_self_and_empty {"vpn"}).1 ⟨"vpn", by decide⟩

/-- C8: the escalation lookup is total and layered: the per-department
entry when present, else the issue type's `"default"` entry, else the
global default `"support@company.com"`; with the three concrete values the
spec lists. -/
theorem escalation_contact_lookup (issue dept : String) :
    get_escalation_contact "hardware" "it" = "hardware-support@company.com" ∧
    get_escalation_contact "hardware" "hr" = "it-support@company.com" ∧
    get_escalation_contact "unknown-type" "hr" = "support@company.com" ∧
    (dictGet escalation_contacts issue = none →
      get_escalation_contact issue dept = "support@company.com") ∧
    (∀ tbl, dictGet escalation_contacts issue = some tbl →
      get_escalation_contact issue dept =
        (dictGet tbl dept).getD ((dictGet tbl "default").getD "support@company.com")) := by
  refine ⟨rfl, rfl, rfl, ?_, ?_⟩
  · intro h
    unfold get_escalation_contact
    rw [h]
    rfl
  · intro tbl h
    unfold get_escalation_contact
    rw [h]
    rfl

/-- Witness for C8: an issue type absent from the table gets the global
default for any department. -/
theorem escalation_contact_lookup_witness :
    get_escalation_contact "email" "finance" = "support@company.com" :=
  (escalation_contact_lookup "email" "finance").2.2.2.1 (by rfl)

/-- C1: for every candidate list and query text, the code's source choice
follows the spec's four ordered rules: empty list → regenerate; top score
≥ 0.9 → reuse with no keyword check; top score ≥ 0.8 with sufficient
keyword overlap → reuse; otherwise regenerate. -/
theorem resolution_gate_matches_spec (cands : List SimilarTicket) (q : String) :
    responseSource cands q = sourceLabel (specResolutionGate cands q) := by
  cases cands with
  | nil => rfl
  | cons top rest =>
    unfold responseSource useDatabaseSolution specResolutionGate
    dsimp only
    by_cases h9 : (9:ℚ)/10 ≤ top.similarity_score
    · rw [if_pos h9, if_pos h9]
      rfl
    · rw [if_neg h9, if_neg h9]
      by_cases h8 : (8:ℚ)/10 ≤ top.similarity_score ∧
          sufficientOverlap (extract_keywords q) (extract_keywords top.description) = true
      · have hb : (decide ((8:ℚ)/10 ≤ top.similarity_score) &&
            check_keyword_similarity q top.description) = true := by
          rw [Bool.and_eq_true, decide_eq_true_iff]
          exact h8
        rw [hb, if_pos (show (true : Bool) = true from rfl)]
        rw [if_pos h8]
        rfl
      · have hb : (decide ((8:ℚ)/10 ≤ top.similarity_score) &&
            check_keyword_similarity q top.description) = false := by
          rw [Bool.eq_false_iff]
          intro hT
          rw [Bool.and_eq_true, decide_eq_true_iff] at hT
          exact h8 hT
        rw [hb, if_neg (show ¬ (false : Bool) = true by simp)]
        rw [if_neg h8]
        rfl

/-- A well-formed validated generator analysis used in closed statements. -/
def genEx : GenAnalysis :=
  { issue_type := "software"
    urgency := "high"
    solution := "Restart the application and clear its cache."
    confidence_score := 7/10
    reasoning := "Known symptom." }

/-- A sample ticket request used in closed statements. -/
def reqEx : TicketRequest :=
  { name := "John Doe"
    department := .it
    issue_description := "vpn keeps crashing when opened" }

/-- C6: when the external vector-index search raises, the similar-ticket
lookup returns an empty list instead of propagating, the gate on an empty
candidate list chooses regeneration, and the whole pipeline still returns
an AI-sourced response rather than failing. -/
theorem search_failure_degrades_to_regeneration (e : String) (lim : Nat)
    (m : ℚ) (q tid : String) (req : TicketRequest) (pt : Nat) :
    search_similar (Except.error e) lim m = [] ∧
    find_similar_tickets (Except.error e) = [] ∧
    responseSource [] q = "ai" ∧
    (process_ticket tid req (Except.error e) (Except.ok genEx) pt).response_source = "ai" := by
  refine ⟨rfl, rfl, rfl, ?_⟩
  rfl

lemma aiBranch_ok {tid : String} {req : TicketRequest}
    {similar : List SimilarTicket} {gen : Except String GenAnalysis}
    {pt : Nat} {r : TicketResponse}
    (h : aiBranch tid req similar gen pt = Except.ok r) :
    ∃ g, gen = Except.ok g ∧ r.confidence_score = g.confidence_score ∧
      r.response_source = "ai" ∧ r.source_ticket_id = none := by
  unfold aiBranch at h
  cases gen with
  | error e => exact absurd h (by simp [Bind.bind, Except.bind])
  | ok g =>
    refine ⟨g, rfl, ?_⟩
    simp only [Bind.bind, Except.bind] at h
    cases hit : parseIssueType g.issue_type with
    | none => rw [hit] at h; exact absurd h (by simp)
    | some it =>
      cases hur : parseUrgency g.urgency with
      | none => rw [hit, hur] at h; exact absurd h (by simp)
      | some ur =>
        rw [hit, hur] at h
        have := Except.ok.inj h
        subst this
        exact ⟨rfl, rfl, rfl⟩

/-- C2: on every successfully processed ticket, the confidence score is
the reused candidate's similarity score when the source is the database,
and the generator's reported confidence when the source is the AI
generator; the source-candidate id is set exactly when the source is the
database. -/
theorem response_confidence_source_invariant (tid : String)
    (req : TicketRequest) (similar : List SimilarTicket)
    (gen : Except String GenAnalysis) (pt : Nat) (r : TicketResponse)
    (h : processTicketInner tid req similar gen pt = Except.ok r) :
    (r.response_source = "database" →
      ∃ best rest, similar = best :: rest ∧
        r.confidence_score = best.similarity_score ∧
        r.source_ticket_id = some best.id) ∧
    (r.response_source = "ai" →
      (∃ g, gen = Except.ok g ∧ r.confidence_score = g.confidence_score) ∧
      r.source_ticket_id = none) ∧
    (r.source_ticket_id ≠ none ↔ r.response_source = "database") := by
  have hcases :
      (∃ best rest, similar = best :: rest ∧ r = reuseResponse tid req similar best pt) ∨
      aiBranch tid req similar gen pt = Except.ok r := by
    unfold processTicketInner at h
    cases similar with
    | nil => exact Or.inr h
    | cons best rest =>
      cases hdb : useDatabaseSolution (best :: rest) req.issue_description with
      | false => rw [hdb] at h; exact Or.inr h
      | true =>
        rw [hdb] at h
        exact Or.inl ⟨best, rest, rfl, (Except.ok.inj h).symm⟩
  rcases hcases with ⟨best, rest, hsim, hr⟩ | hai
  · subst hr
    refine ⟨fun _ => ⟨best, rest, hsim, rfl, rfl⟩, fun hcontra => ?_, ?_⟩
    · exact absurd hcontra (by simp [reuseResponse])
    · simp [reuseResponse]
  · obtain ⟨g, hg, hc, hs, hid⟩ := aiBranch_ok hai
    refine ⟨fun hcontra => ?_, fun _ => ⟨⟨g, hg, hc⟩, hid⟩, ?_⟩
    · rw [hs] at hcontra; exact absurd hcontra (by simp)
    · rw [hs, hid]; simp

/-- Witness for C2: the concrete AI-sourced response produced for
`reqEx` with generator output `genEx` and no candidates. -/
theorem response_confidence_source_invariant_witness :
    (∃ g, (Except.ok genEx : Except String GenAnalysis) = Except.ok g ∧
      (7:ℚ)/10 = g.confidence_score) ∧
    (none : Option String) = none := by
  have h := response_confidence_source_invariant "TKT" reqEx [] (Except.ok genEx) 0
    { ticket_id := "TKT"
      user_name := "John Doe"
      department := .it
      issue_description := "vpn keeps crashing when opened"
      issue_type := .software
      urgency := .high
      ai_generated_solution := "Restart the application and clear its cache."
      similar_tickets := []
      escalation_contact := some "software-support@company.com"
      processing_time_ms := 0
      confidence_score := 7/10
      response_source := "ai"
      source_ticket_id := none } (by rfl)
  exact h.2.1 (by rfl)

/-- C7: when any step inside the pipeline raises, `process_ticket` returns
(never throws) the fixed fallback response: source `"fallback"`,
confidence 0.1, the fixed apologetic text, no similar tickets, and the
generic `it-support@company.com` contact. -/
theorem pipeline_exception_returns_fallback (tid : String)
    (req : TicketRequest) (raw : Except String (List RawResult))
    (gen : Except String GenAnalysis) (pt : Nat) (e : String)
    (h : processTicketInner tid req (find_similar_tickets raw) gen pt = Except.error e) :
    process_ticket tid req raw gen pt = fallbackResponse tid req pt ∧
    (process_ticket tid req raw gen pt).response_source = "fallback" ∧
    (process_ticket tid req raw gen pt).confidence_score = 1/10 ∧
    (process_ticket tid req raw gen pt).ai_generated_solution =
      "We're experiencing technical difficulties. Please contact IT support directly for immediate assistance." ∧
    (process_ticket tid req raw gen pt).similar_tickets = [] ∧
    (process_ticket tid req raw gen pt).escalation_contact = some "it-support@company.com" := by
  have hp : process_ticket tid req raw gen pt = fallbackResponse tid req pt := by
    show (match processTicketInner tid req (find_similar_tickets raw) gen pt with
          | .ok r => r
          | .error _ => fallbackResponse tid req pt) = fallbackResponse tid req pt
    rw [h]
  refine ⟨hp, ?_, ?_, ?_, ?_, ?_⟩ <;> rw [hp] <;> rfl

/-- Witness for C7: a generator failure with no usable candidates yields
the fallback response. -/
theorem pipeline_exception_returns_fallback_witness :
    process_ticket "TKT" reqEx (Except.error "index down")
      (Except.error "generator down") 0 = fallbackResponse "TKT" reqEx 0 :=
  (pipeline_exception_returns_fallback "TKT" reqEx (Except.error "index down")
    (Except.error "generator down") 0 "generator down" (by rfl)).1

/-- An otherwise well-formed parsed generator analysis whose
`confidence_score` key is absent. -/
def dictBase : AnalysisDict :=
  { issue_type := some "hardware"
    urgency := some "high"
    confidence_score := none
    solution := some "Restart."
    reasoning := some "Known issue."
    estimated_resolution_time := some "5 minutes"
    required_skills := some "beginner"
    escalation_criteria := some "never" }

/-- C5 (behaviour at the decisive inputs): validation coerces an unknown
or missing issue type to `"other"` and an unknown urgency to `"medium"`,
and replaces an out-of-range or non-numeric confidence by 0.5 — but a
MISSING `confidence_score` key is left missing (not defaulted to 0.5):
the local default 0.5 passes the range check, so the write-back never
fires.  The last conjunct exhibits this divergence from the claim. -/
theorem validate_analysis_behaviour :
    (validate_analysis { dictBase with issue_type := some "banana" }).issue_type = some "other" ∧
    (validate_analysis { dictBase with issue_type := none }).issue_type = some "other" ∧
    (validate_analysis { dictBase with urgency := some "urgent" }).urgency = some "medium" ∧
    (validate_analysis { dictBase with confidence_score := some (.num (3/2)) }).confidence_score
      = some (.num (1/2)) ∧
    (validate_analysis { dictBase with confidence_score := some (.num (-(1/2))) }).confidence_score
      = some (.num (1/2)) ∧
    (validate_analysis { dictBase with confidence_score := some (.nonNum "high") }).confidence_score
      = some (.num (1/2)) ∧
    (validate_analysis { dictBase with confidence_score := some (.num (3/4)) }).confidence_score
      = some (.num (3/4)) ∧
    (validate_analysis dictBase).confidence_score = none := by
  refine ⟨?_, ?_, ?_, ?_, ?_, ?_, ?_, ?_⟩ <;>
    simp [validate_analysis, dictBase, valid_issue_types, valid_urgencies] <;> norm_num

lemma buildTicket_some {m : ℚ} {r : RawResult} {t : SimilarTicket}
    (h : buildTicket m r = some t) :
    m ≤ similarityFromDistance r.distance ∧
    t.similarity_score = round3 (similarityFromDistance r.distance) := by
  unfold buildTicket at h
  dsimp only at h
  by_cases hs : m ≤ similarityFromDistance r.distance
  · refine ⟨hs, ?_⟩
    rw [if_pos hs] at h
    cases hit : parseIssueType r.issue_type <;> rw [hit] at h
    · exact absurd h (by simp)
    · cases hur : parseUrgency r.urgency <;> rw [hur] at h
      · exact absurd h (by simp)
      · have ht := Option.some.inj h
        subst ht
        rfl
  · rw [if_neg hs] at h
    exact absurd h (by simp)

/-- C4: the distance-to-similarity conversion is `max 0 (1 − d/2)` (1 at
distance 0, 0 at distance 2, clamped to 0 at distance 3); the returned
list is ordered by descending similarity score; and every returned
candidate comes from a raw row whose computed (unrounded) similarity
reaches the floor, carrying that similarity rounded to three decimals. -/
theorem search_similar_contract (raw : List RawResult) (lim : Nat) (m : ℚ)
    (t : SimilarTicket) (ht : t ∈ search_similar (Except.ok raw) lim m) :
    (∀ d : ℚ, similarityFromDistance d = max 0 (1 - d/2)) ∧
    similarityFromDistance 0 = 1 ∧
    similarityFromDistance 2 = 0 ∧
    similarityFromDistance 3 = 0 ∧
    (search_similar (Except.ok raw) lim m).Pairwise
      (fun a b => b.similarity_score ≤ a.similarity_score) ∧
    (∀ r : RawResult, similarityFromDistance r.distance < m →
      buildTicket m r = none) ∧
    ∃ r ∈ raw, m ≤ similarityFromDistance r.distance ∧
      t.similarity_score = round3 (similarityFromDistance r.distance) := by
  refine ⟨fun d => rfl, by norm_num [similarityFromDistance],
    by norm_num [similarityFromDistance], ?_, ?_, ?_, ?_⟩
  · show max 0 (1 - 3/2) = 0
    rw [max_eq_left (by norm_num)]
  · have hsorted := @List.sorted_mergeSort SimilarTicket scoreGe
      (fun a b c hab hbc => by
        simp only [scoreGe, decide_eq_true_iff] at *
        exact le_trans hbc hab)
      (fun a b => by
        simp only [scoreGe]
        rcases le_total b.similarity_score a.similarity_score with h | h
        · simp [h]
        · simp [h])
      (raw.filterMap (buildTicket m))
    show ((raw.filterMap (buildTicket m)).mergeSort scoreGe).Pairwise _
    exact hsorted.imp (fun hab => by
      simpa only [scoreGe, decide_eq_true_iff] using hab)
  · intro r hr
    unfold buildTicket
    dsimp only
    rw [if_neg (not_le.mpr hr)]
  · have ht' : t ∈ raw.filterMap (buildTicket m) := by
      rw [show search_similar (Except.ok raw) lim m
            = (raw.filterMap (buildTicket m)).mergeSort scoreGe from rfl] at ht
      exact List.mem_mergeSort.mp ht
    obtain ⟨r, hr, hb⟩ := List.mem_filterMap.mp ht'
    obtain ⟨h1, h2⟩ := buildTicket_some hb
    exact ⟨r, hr, h1, h2⟩

/-- A raw index row at distance 0 used in closed statements. -/
def rEx : RawResult :=
  { document := "laptop screen flickering after update"
    ticket_id := "TKT-SAMPLE"
    resolution := "Updated display drivers"
    issue_type := "hardware"
    urgency := "medium"
    resolved_date := "2024-12-01"
    distance := 0 }

/-- The `SimilarTicket` built from `rEx`. -/
def tEx : SimilarTicket :=
  { id := "TKT-SAMPLE"
    description := "laptop screen flickering after update"
    resolution := "Updated display drivers"
    issue_type := .hardware
    urgency := .medium
    similarity_score := 1
    resolved_date := "2024-12-01" }

lemma round3_one : round3 1 = 1 := by
  have h1 : ((1:ℚ) * 1000) = 1000 := by norm_num
  unfold round3 roundHalfEven
  rw [h1]
  norm_num

lemma buildTicket_rEx : buildTicket (3/10) rEx = some tEx := by
  unfold buildTicket rEx
  dsimp only
  rw [if_pos (by norm_num [similarityFromDistance])]
  show some _ = some tEx
  rw [show similarityFromDistance 0 = 1 by norm_num [similarityFromDistance]]
  rw [round3_one]
  rfl

lemma search_similar_rEx : search_similar (Except.ok [rEx]) 5 (3/10) = [tEx] := by
  show (([rEx].filterMap (buildTicket (3/10))).mergeSort scoreGe) = [tEx]
  rw [List.filterMap_cons, buildTicket_rEx]
  simp

/-- Witness for C4: the single row `rEx` at distance 0 survives the 0.3
floor and is returned with score `round3 1`. -/
theorem search_similar_contract_witness :
    ∃ r ∈ [rEx], (3:ℚ)/10 ≤ similarityFromDistance r.distance ∧
      tEx.similarity_score = round3 (similarityFromDistance r.distance) :=
  (search_similar_contract [rEx] 5 (3/10) tEx
    (by rw [search_similar_rEx]; exact List.mem_singleton.mpr rfl)).2.2.2.2.2.2

/-- A raw index row at distance 0.2008, whose exact similarity 0.8996 is
strictly below 0.9 but rounds to 0.9. -/
def r8996 : RawResult :=
  { document := "printer jammed"
    ticket_id := "TKT-8996"
    resolution := "Cleared the print queue"
    issue_type := "hardware"
    urgency := "low"
    resolved_date := "2024-12-05"
    distance := 251/1250 }

/-- The `SimilarTicket` built from `r8996`: its stored score is 0.9. -/
def cand8996 : SimilarTicket :=
  { id := "TKT-8996"
    description := "printer jammed"
    resolution := "Cleared the print queue"
    issue_type := .hardware
    urgency := .low
    similarity_score := 9/10
    resolved_date := "2024-12-05" }

lemma sim_r8996 : similarityFromDistance (251/1250) = 2249/2500 := by
  unfold similarityFromDistance
  rw [max_eq_right (by norm_num)]
  norm_num

lemma round3_r8996 : round3 ((2249:ℚ)/2500) = 9/10 := by
  have h1 : ((2249:ℚ)/2500 * 1000) = 4498/5 := by norm_num
  unfold round3 roundHalfEven
  rw [h1]
  norm_num

/-- C10: candidates carry their similarity rounded to three decimals; the
floor filter uses the unrounded value while the gate compares the rounded
one, so a raw distance with exact similarity 0.8996 (< 0.9) is stored as
0.9 and reused with no keyword check: on the query
"vpn keeps crashing" the keyword predicate against this candidate fails,
yet the gate chooses the database solution. -/
theorem rounded_score_crosses_threshold :
    similarityFromDistance ((251:ℚ)/1250) = 2249/2500 ∧
    (2249:ℚ)/2500 < 9/10 ∧
    round3 ((2249:ℚ)/2500) = 9/10 ∧
    buildTicket (3/10) r8996 = some cand8996 ∧
    check_keyword_similarity "vpn keeps crashing" cand8996.description = false ∧
    useDatabaseSolution [cand8996] "vpn keeps crashing" = true := by
  refine ⟨sim_r8996, by norm_num, round3_r8996, ?_, ?_, ?_⟩
  · unfold buildTicket r8996
    dsimp only
    rw [if_pos (by rw [sim_r8996]; norm_num)]
    show some _ = some cand8996
    rw [sim_r8996, round3_r8996]
    rfl
  · have hA : extract_keywords "vpn keeps crashing" = {"vpn", "crash", "crashing"} := by
      decide
    have hB : extract_keywords "printer jammed" = {"printer"} := by decide
    show sufficientOverlap (extract_keywords "vpn keeps crashing")
      (extract_keywords "printer jammed") = false
    rw [hA, hB]
    exact sufficientOverlap_false_of_small_inter (by decide)
  · unfold useDatabaseSolution
    dsimp only
    have h : (9:ℚ)/10 ≤ cand8996.similarity_score := le_of_eq (by rfl)
    rw [if_pos h]

end TriagAI
